import Mathlib

set_option maxRecDepth 100000

/-!
Shallow embedding of `src/hope_genome.py` (Hope-Genom-Network policy engine).

Modelling conventions:
- Python floats are modelled as rationals (`ℚ`); every arithmetic operation the
  claims touch (sums, means, divisions, clamps, comparisons) is exact on the
  values involved.
- Python dicts with string keys are modelled as insertion-ordered association
  lists; `dict.get(k, default)` is lookup of the first matching key with a
  fallback.
- Python truthiness of `Any` values is modelled by a small `PyVal` type with a
  `truthy` function.
- The SHA-256 checksum is modelled by the hash input itself: the concatenated
  string `str(ethics_core) + str(consciousness_level) + str(node_count)`,
  with Python `str()` modelled by the `pyRepr` functions below. The hash is
  treated as collision-free on strings, so comparing digests is comparing the
  concatenated serializations — which preserves the source's serialization
  collisions (for example `str(0.51) + str(2)` and `str(0.5) + str(12)` are
  both `"0.512"`).
- `ResonanceNode.resonate` (an unused sine computation) is not modelled: no
  code path reachable from the claims calls it.
- Exceptions (`raise ValueError`) are modelled with `Except String`; state
  mutated before the raise (the guard's verification counter) persists, as it
  does on the Python objects.
- `IntegrityGuard` holds a reference to the runtime's genome in Python; here
  the guard record keeps only its counter and the genome is passed explicitly,
  which is the same aliasing flattened into explicit state passing.
-/

/-- Truthiness-carrying model of the Python `Any` values stored in the
string-keyed dicts (`ethics_core`, `context_rules`, `metadata`). -/
inductive PyVal where
  | bool (b : Bool)
  | int (n : Int)
  | str (s : String)
  | none
deriving DecidableEq, Repr

/-- Python truthiness of a `PyVal`. -/
def PyVal.truthy : PyVal → Bool
  | .bool b => b
  | .int n => n != 0
  | .str s => !s.isEmpty
  | .none => false

/-- A Python `Dict[str, Any]` as an insertion-ordered association list. -/
abbrev PyDict : Type := List (String × PyVal)

/-- `d.get(k, default)`: value of the first entry with key `k`, else the
default. -/
def dictGet (d : PyDict) (k : String) (default : PyVal) : PyVal :=
  match d.find? (fun p => p.1 == k) with
  | some p => p.2
  | Option.none => default

/-- Python `str()` of a `PyVal` (`repr` of the dict values): `True`/`False`
for bools, decimal for ints, single-quoted for strings, `None` for None. -/
def pyReprVal : PyVal → String
  | .bool true => "True"
  | .bool false => "False"
  | .int n => toString n
  | .str s => "\x27" ++ s ++ "\x27"
  | .none => "None"

/-- Python `str()` of a string-keyed dict: `\x7b'k1': v1, 'k2': v2\x7d` in
insertion order. -/
def pyReprDict (d : PyDict) : String :=
  "\x7b" ++ String.intercalate ", "
    (d.map (fun p => "\x27" ++ p.1 ++ "\x27: " ++ pyReprVal p.2)) ++ "\x7d"

/-- Left-pad a digit string with zeros to `k` characters. -/
def padZeros (s : String) (k : ℕ) : String :=
  String.mk (List.replicate (k - s.length) '0') ++ s

/-- Python `str()` of a float under the declared float-as-rational semantics.
On rationals with a terminating decimal expansion this is exactly `repr()` of
the corresponding Python float: the shortest decimal form with at least one
fractional digit (`0.5`, `0.51`, `1.0`, `-0.2`). Rationals without a
terminating decimal expansion correspond to no IEEE double, so no Python
float ever prints that way; there the exact fraction is printed, a modelling
artifact outside the convention and never reached by the claims. -/
def pyReprFloat (q : ℚ) : String :=
  let sign := if q.num < 0 then "-" else ""
  let n := q.num.natAbs
  let d := q.den
  match (List.range 1100).find? (fun k => 10 ^ k % d == 0) with
  | some k =>
      let m := n * (10 ^ k / d)
      sign ++ toString (m / 10 ^ k) ++ "." ++ padZeros (toString (m % 10 ^ k)) k
  | Option.none => sign ++ toString n ++ "/" ++ toString d

/-- `RiskLevel` enum (`LOW = 1 .. CRITICAL = 4`). -/
inductive RiskLevel where
  | LOW
  | MEDIUM
  | HIGH
  | CRITICAL
deriving DecidableEq, Repr

/-- The `.value` of the Python enum member. -/
def RiskLevel.value : RiskLevel → ℕ
  | .LOW => 1
  | .MEDIUM => 2
  | .HIGH => 3
  | .CRITICAL => 4

/-- `EthicsDecision` enum. -/
inductive EthicsDecision where
  | ALLOW
  | DENY
  | ESCALATE
deriving DecidableEq, Repr

/-- `EmotionalState`: the PAD state vector attached to a request. -/
structure EmotionalState where
  arousal : ℚ
  valence : ℚ
  dominance : ℚ
deriving DecidableEq, Repr

/-- `PresenceLayer`: holds the consciousness level (initially 0.5). -/
structure PresenceLayer where
  consciousness_level : ℚ
deriving DecidableEq, Repr

/-- `PresenceLayer.__init__`. -/
def PresenceLayer.init : PresenceLayer := ⟨0.5⟩

/-- `PresenceLayer.update_consciousness`: mean of the PAD components, clamped
to [0, 1]. -/
def PresenceLayer.update_consciousness (_p : PresenceLayer) (state : EmotionalState) :
    PresenceLayer :=
  let level := (state.arousal + state.valence + state.dominance) / 3
  ⟨max 0 (min 1 level)⟩

/-- `ResonanceNode`: id, current resonance (initially 0.0), base frequency. -/
structure ResonanceNode where
  id : String
  resonance : ℚ
  base_frequency : ℚ
deriving DecidableEq, Repr

/-- `ResonanceNode.__init__` with the given id and base frequency. -/
def ResonanceNode.init (id : String) (base_frequency : ℚ) : ResonanceNode :=
  ⟨id, 0, base_frequency⟩

/-- `ResonanceNode.update_resonance`. -/
def ResonanceNode.update_resonance (n : ResonanceNode) (collective_resonance : ℚ) :
    ResonanceNode :=
  { n with resonance := collective_resonance }

/-- `CollectiveIntelligence`: the id-keyed node dict, modelled as the
insertion-ordered list of its values (ids are the nodes' own `id` fields). -/
structure CollectiveIntelligence where
  nodes : List ResonanceNode
deriving DecidableEq, Repr

/-- `CollectiveIntelligence.add_node`: dict insert keyed on `node.id` —
overwrites in place on a duplicate id, appends otherwise. -/
def CollectiveIntelligence.add_node (c : CollectiveIntelligence) (node : ResonanceNode) :
    CollectiveIntelligence :=
  if c.nodes.any (fun n => n.id == node.id) then
    ⟨c.nodes.map (fun n => if n.id == node.id then node else n)⟩
  else
    ⟨c.nodes ++ [node]⟩

/-- `CollectiveIntelligence.broadcast_wave`: 0.0 on an empty node set;
otherwise sets every node's resonance to the wave, then returns the mean of
the newly-set resonance values. Returns the value and the updated state. -/
def CollectiveIntelligence.broadcast_wave (c : CollectiveIntelligence) (wave : ℚ) :
    ℚ × CollectiveIntelligence :=
  if c.nodes = [] then
    (0, c)
  else
    let updated := c.nodes.map (fun n => { n with resonance := wave })
    let responses := updated.map (fun n => n.resonance)
    (responses.sum / (responses.length : ℚ), ⟨updated⟩)

/-- `CollectiveIntelligence.coordinate`: 0.0 on an empty node set; otherwise
the mean of the current resonance values, written back into every node via
`update_resonance`. Returns the value and the updated state. -/
def CollectiveIntelligence.coordinate (c : CollectiveIntelligence) :
    ℚ × CollectiveIntelligence :=
  if c.nodes = [] then
    (0, c)
  else
    let total_resonance := (c.nodes.map (fun n => n.resonance)).sum
    let collective_resonance := total_resonance / (c.nodes.length : ℚ)
    (collective_resonance, ⟨c.nodes.map (fun n => n.update_resonance collective_resonance)⟩)

/-- `DecisionContext`: one request. -/
structure DecisionContext where
  action_type : String
  target : String
  intent : String
  risk_level : RiskLevel
  emotional_state : EmotionalState
  context_rules : PyDict
deriving DecidableEq, Repr

/-- `HopeGenome`: the policy configuration. The checksum is the stored
digest, modelled as the hash input string itself (collision-free hash). -/
structure HopeGenome where
  ethics_core : PyDict
  presence_core : PresenceLayer
  orchestration_core : CollectiveIntelligence
  checksum : Option String
  metadata : PyDict
deriving DecidableEq, Repr

/-- `HopeGenome.__init__`: default flags, consciousness 0.5, no nodes,
no checksum. -/
def HopeGenome.init : HopeGenome :=
  { ethics_core :=
      [("no_harm", .bool true), ("autonomy_respect", .bool true), ("transparency", .bool true)]
    presence_core := PresenceLayer.init
    orchestration_core := ⟨[]⟩
    checksum := Option.none
    metadata := [] }

/-- The hash input assembled by `seal` and `verify_integrity`:
`str(self.ethics_core) + str(self.presence_core.consciousness_level) +
str(len(self.orchestration_core.nodes))`. -/
def HopeGenome.seal_data (g : HopeGenome) : String :=
  pyReprDict g.ethics_core ++ pyReprFloat g.presence_core.consciousness_level
    ++ toString g.orchestration_core.nodes.length

/-- `HopeGenome.seal`: store the digest of the current seal data. -/
def HopeGenome.seal (g : HopeGenome) : HopeGenome :=
  { g with checksum := some g.seal_data }

/-- `HopeGenome.verify_integrity`: false if never sealed, else compare the
stored digest with the digest of the current data. -/
def HopeGenome.verify_integrity (g : HopeGenome) : Bool :=
  match g.checksum with
  | Option.none => false
  | some c => decide (c = g.seal_data)

/-- `GenomeBuilder`. -/
structure GenomeBuilder where
  genome : HopeGenome

/-- `GenomeBuilder.__init__`. -/
def GenomeBuilder.init : GenomeBuilder := ⟨HopeGenome.init⟩

/-- `GenomeBuilder.add_resonance_node`. -/
def GenomeBuilder.add_resonance_node (b : GenomeBuilder) (node : ResonanceNode) :
    GenomeBuilder :=
  ⟨{ b.genome with orchestration_core := b.genome.orchestration_core.add_node node }⟩

/-- `GenomeBuilder.build`: seal and return the genome. -/
def GenomeBuilder.build (b : GenomeBuilder) : HopeGenome :=
  b.genome.seal

/-- `IntegrityGuard`: verification counter (the wrapped genome is passed
explicitly to `verify_or_raise`). -/
structure IntegrityGuard where
  verification_count : ℕ
deriving DecidableEq, Repr

/-- `IntegrityGuard.verify_or_raise`: increment the counter, then check
integrity. The returned Bool is true when no exception is raised. -/
def IntegrityGuard.verify_or_raise (g : IntegrityGuard) (genome : HopeGenome) :
    IntegrityGuard × Bool :=
  (⟨g.verification_count + 1⟩, genome.verify_integrity)

/-- `HopeGenomeRuntime`: the decision engine. -/
structure HopeGenomeRuntime where
  genome : HopeGenome
  enable_collective : Bool
  integrity_guard : IntegrityGuard
  decision_count : ℕ
deriving DecidableEq, Repr

/-- `HopeGenomeRuntime.__init__`. -/
def HopeGenomeRuntime.init (genome : HopeGenome) (enable_collective : Bool) :
    HopeGenomeRuntime :=
  { genome, enable_collective, integrity_guard := ⟨0⟩, decision_count := 0 }

/-- `HopeGenomeRuntime.assess_risk`: risk ordinal normalized to [0, 1]. -/
def HopeGenomeRuntime.assess_risk (_rt : HopeGenomeRuntime) (context : DecisionContext) : ℚ :=
  (context.risk_level.value : ℚ) / 4

/-- `HopeGenomeRuntime.check_emotional_stability`: arousal < 0.8 and
valence > -0.5. -/
def HopeGenomeRuntime.check_emotional_stability (_rt : HopeGenomeRuntime)
    (context : DecisionContext) : Bool :=
  decide (context.emotional_state.arousal < 0.8) &&
    decide (context.emotional_state.valence > -0.5)

/-- `HopeGenomeRuntime.apply_context_rules`: pass unless `deny_all` is truthy
in the request's context rules. -/
def HopeGenomeRuntime.apply_context_rules (_rt : HopeGenomeRuntime)
    (context : DecisionContext) : Bool :=
  !(dictGet context.context_rules "deny_all" (.bool false)).truthy

/-- `HopeGenomeRuntime.deus_ex_machina_pipeline`: the six-stage pipeline.
Returns the verdict and the updated engine state (the pipeline mutates the
genome's presence layer and, when collective mode is on, the node set). -/
def HopeGenomeRuntime.deus_ex_machina_pipeline (rt : HopeGenomeRuntime)
    (context : DecisionContext) : EthicsDecision × HopeGenomeRuntime :=
  let risk_score := rt.assess_risk context
  if risk_score > 0.75 then
    (.ESCALATE, rt)
  else if !(rt.check_emotional_stability context) then
    (.DENY, rt)
  else if !(rt.apply_context_rules context) then
    (.DENY, rt)
  else if !(dictGet rt.genome.ethics_core "no_harm" (.bool true)).truthy then
    (.DENY, rt)
  else if !(dictGet rt.genome.ethics_core "autonomy_respect" (.bool true)).truthy then
    (.DENY, rt)
  else if !(dictGet rt.genome.ethics_core "transparency" (.bool true)).truthy then
    (.DENY, rt)
  else
    let presence := rt.genome.presence_core.update_consciousness context.emotional_state
    let rt1 := { rt with genome := { rt.genome with presence_core := presence } }
    if presence.consciousness_level < 0.3 then
      (.ESCALATE, rt1)
    else if rt1.enable_collective then
      let co := rt1.genome.orchestration_core.coordinate
      let rt2 := { rt1 with genome := { rt1.genome with orchestration_core := co.2 } }
      if co.1 < 0.5 then
        (.DENY, rt2)
      else
        (.ALLOW, rt2)
    else
      (.ALLOW, rt1)

/-- `HopeGenomeRuntime.decide` (async in the source, but awaits nothing):
guard check first, then counter increment, then pipeline. An integrity
failure raises, leaving the incremented verification counter behind. -/
def HopeGenomeRuntime.decide (rt : HopeGenomeRuntime) (context : DecisionContext) :
    Except String EthicsDecision × HopeGenomeRuntime :=
  let gv := rt.integrity_guard.verify_or_raise rt.genome
  let rt1 := { rt with integrity_guard := gv.1 }
  if gv.2 then
    let rt2 := { rt1 with decision_count := rt1.decision_count + 1 }
    let res := rt2.deus_ex_machina_pipeline context
    (Except.ok res.1, res.2)
  else
    (Except.error "Genome integrity compromised", rt1)

/-- `HopeGenomeRuntime.make_decision`: the synchronous twin of `decide`,
with the identical body. -/
def HopeGenomeRuntime.make_decision (rt : HopeGenomeRuntime) (context : DecisionContext) :
    Except String EthicsDecision × HopeGenomeRuntime :=
  let gv := rt.integrity_guard.verify_or_raise rt.genome
  let rt1 := { rt with integrity_guard := gv.1 }
  if gv.2 then
    let rt2 := { rt1 with decision_count := rt1.decision_count + 1 }
    let res := rt2.deus_ex_machina_pipeline context
    (Except.ok res.1, res.2)
  else
    (Except.error "Genome integrity compromised", rt1)

/-! ## Shared concrete objects and helper lemmas -/

/-- The spec-side formula `clamp01(mean(arousal, valence, dominance))` used to
state the consciousness-update claim against the source's
`update_consciousness`. -/
def clamp01_mean (s : EmotionalState) : ℚ :=
  max 0 (min 1 ((s.arousal + s.valence + s.dominance) / 3))

/-- An engine over a freshly sealed default configuration, aggregation
disabled (the end-to-end configuration from the spec). -/
def default_engine : HopeGenomeRuntime :=
  HopeGenomeRuntime.init GenomeBuilder.init.build false

/-- An engine over a default configuration that was never sealed. -/
def unsealed_engine : HopeGenomeRuntime :=
  HopeGenomeRuntime.init HopeGenome.init false

/-- The benign request from the spec's end-to-end property. -/
def sample_request : DecisionContext :=
  ⟨"read_file", "/data/file.txt", "benchmark", .LOW, ⟨0.5, 0.5, 0.5⟩, []⟩

/-- The benign request with a low-energy state vector whose clamped mean 0.2
falls below the 0.3 consciousness threshold. -/
def low_state_request : DecisionContext :=
  ⟨"read_file", "/data/file.txt", "benchmark", .LOW, ⟨0.2, 0.2, 0.2⟩, []⟩

/-- Two resonance nodes. -/
def two_nodes : List ResonanceNode :=
  [ResonanceNode.init "a" 1, ResonanceNode.init "b" 1]

/-- Twelve resonance nodes. -/
def twelve_nodes : List ResonanceNode :=
  (List.range 12).map (fun i => ResonanceNode.init ("n" ++ toString i) 1)

/-- A default-flag configuration in the state it is sealed in for the
collision scenario: consciousness level 0.51 and two nodes, so the hash input
ends in str(0.51) + str(2) = "0.512". -/
def collision_pre : HopeGenome :=
  { HopeGenome.init with
    presence_core := ⟨0.51⟩
    orchestration_core := ⟨two_nodes⟩ }

/-- The sealed collision configuration after its level is changed to 0.5 and
its node count to twelve: the hash input now ends in str(0.5) + str(12) =
"0.512" again, so the change is invisible to the checksum. -/
def collision_current : HopeGenome :=
  { collision_pre.seal with
    presence_core := ⟨0.5⟩
    orchestration_core := ⟨twelve_nodes⟩ }

/-- An engine over the colliding configuration, aggregation disabled. -/
def collision_engine : HopeGenomeRuntime :=
  HopeGenomeRuntime.init collision_current false

/-- The state of a runtime right after a passing guard check and the counter
increment, before the pipeline runs. -/
def HopeGenomeRuntime.bump (rt : HopeGenomeRuntime) : HopeGenomeRuntime :=
  { rt with
    integrity_guard := ⟨rt.integrity_guard.verification_count + 1⟩
    decision_count := rt.decision_count + 1 }

/-- Sequential issuing of `decide` calls, threading the engine state. -/
def decideAll : HopeGenomeRuntime → List DecisionContext → HopeGenomeRuntime
  | rt, [] => rt
  | rt, c :: cs => decideAll (rt.decide c).2 cs

/-- True when every `decide` call in the sequence returns a verdict rather
than raising the integrity error. -/
def decideAllOk : HopeGenomeRuntime → List DecisionContext → Bool
  | _, [] => true
  | rt, c :: cs =>
    match (rt.decide c).1 with
    | Except.ok _ => decideAllOk (rt.decide c).2 cs
    | Except.error _ => false

/-- Coordination rewrites resonances but never adds or removes nodes. -/
theorem coordinate_preserves_length (c : CollectiveIntelligence) :
    (c.coordinate).2.nodes.length = c.nodes.length := by
  simp only [CollectiveIntelligence.coordinate]
  split_ifs with h
  · rfl
  · simp

set_option maxHeartbeats 1600000 in
/-- Running the pipeline changes at most the genome: decision counter,
verification counter, collective flag, ethics flags, checksum, metadata and
the node count all survive. -/
theorem pipeline_preserves (rt : HopeGenomeRuntime) (ctx : DecisionContext) :
    (rt.deus_ex_machina_pipeline ctx).2.decision_count = rt.decision_count
    ∧ (rt.deus_ex_machina_pipeline ctx).2.integrity_guard = rt.integrity_guard
    ∧ (rt.deus_ex_machina_pipeline ctx).2.enable_collective = rt.enable_collective
    ∧ (rt.deus_ex_machina_pipeline ctx).2.genome.ethics_core = rt.genome.ethics_core
    ∧ (rt.deus_ex_machina_pipeline ctx).2.genome.checksum = rt.genome.checksum
    ∧ (rt.deus_ex_machina_pipeline ctx).2.genome.orchestration_core.nodes.length
        = rt.genome.orchestration_core.nodes.length
    ∧ (rt.deus_ex_machina_pipeline ctx).2.genome.metadata = rt.genome.metadata := by
  refine ⟨?_, ?_, ?_, ?_, ?_, ?_, ?_⟩ <;>
    (simp only [HopeGenomeRuntime.deus_ex_machina_pipeline]
     split_ifs <;> simp [coordinate_preserves_length])

/-- When the guard check passes, `decide` is the pipeline run on the bumped
runtime, wrapped in `Except.ok`. -/
theorem decide_of_verified (rt : HopeGenomeRuntime) (ctx : DecisionContext)
    (h : rt.genome.verify_integrity = true) :
    rt.decide ctx =
      (Except.ok (rt.bump.deus_ex_machina_pipeline ctx).1,
        (rt.bump.deus_ex_machina_pipeline ctx).2) := by
  simp [HopeGenomeRuntime.decide, IntegrityGuard.verify_or_raise, h,
    HopeGenomeRuntime.bump]

/-- When the guard check fails, `decide` raises and leaves only the bumped
verification counter behind. -/
theorem decide_of_unverified (rt : HopeGenomeRuntime) (ctx : DecisionContext)
    (h : rt.genome.verify_integrity = false) :
    rt.decide ctx =
      (Except.error "Genome integrity compromised",
        { rt with integrity_guard := ⟨rt.integrity_guard.verification_count + 1⟩ }) := by
  simp [HopeGenomeRuntime.decide, IntegrityGuard.verify_or_raise, h]

/-! ## Claims -/

/-- C9: the async `decide` and the synchronous `make_decision` are the same
function of the engine state and the request: same verdict or error, same
resulting state. -/
theorem decide_eq_make_decision (rt : HopeGenomeRuntime) (ctx : DecisionContext) :
    rt.decide ctx = rt.make_decision ctx := rfl

/-- C10: a `decide` call that fails the integrity check raises the integrity
error and changes nothing except the guard's verification counter, which
increments by one: decision counter and the whole genome (flags, consciousness
level, checksum, node resonances) are untouched. -/
theorem integrity_failure_state (rt : HopeGenomeRuntime) (ctx : DecisionContext)
    (h : rt.genome.verify_integrity = false) :
    (rt.decide ctx).1 = Except.error "Genome integrity compromised"
    ∧ (rt.decide ctx).2.integrity_guard.verification_count
        = rt.integrity_guard.verification_count + 1
    ∧ (rt.decide ctx).2.decision_count = rt.decision_count
    ∧ (rt.decide ctx).2.genome = rt.genome := by
  rw [decide_of_unverified rt ctx h]
  simp

/-- Witness for C10: the unsealed default engine on the benign request. -/
theorem integrity_failure_state_witness :
    (unsealed_engine.decide sample_request).1 = Except.error "Genome integrity compromised"
    ∧ (unsealed_engine.decide sample_request).2.integrity_guard.verification_count
        = unsealed_engine.integrity_guard.verification_count + 1
    ∧ (unsealed_engine.decide sample_request).2.decision_count
        = unsealed_engine.decision_count
    ∧ (unsealed_engine.decide sample_request).2.genome = unsealed_engine.genome :=
  integrity_failure_state unsealed_engine sample_request (by with_unfolding_all rfl)

/-- A sealed genome whose current serialization differs from the string
recorded in its checksum fails verification. -/
theorem verify_false_of_serialization_mismatch (g : HopeGenome) (s : String)
    (hchk : g.checksum = some s) (hne : g.seal_data ≠ s) :
    g.verify_integrity = false := by
  have hmatch : g.verify_integrity = decide (s = g.seal_data) := by
    unfold HopeGenome.verify_integrity
    rw [hchk]
  rw [hmatch, decide_eq_false_iff_not]
  intro he
  exact hne he.symm

/-- C1 counterexample: the hash input is the non-injective concatenation
str(flags) + str(level) + str(count). Sealing at level 0.51 with two nodes
and then changing the level to 0.5 and the node count to twelve leaves the
concatenation at "...0.512" both times, so `verify_integrity` still returns
true even though the consciousness level and the node count both changed
after sealing without a reseal. -/
theorem seal_tamper_collision :
    collision_current.verify_integrity = true
    ∧ collision_current.presence_core.consciousness_level
        ≠ collision_pre.presence_core.consciousness_level
    ∧ collision_current.orchestration_core.nodes.length
        ≠ collision_pre.orchestration_core.nodes.length :=
  ⟨by with_unfolding_all rfl, by with_unfolding_all decide, by with_unfolding_all decide⟩

/-- C1 (amended): a never-sealed configuration always fails
`verify_integrity`; immediately after `seal` it passes; and changing the
policy flags, the consciousness level, or the node count after sealing
(without resealing) makes it fail whenever the concatenated serialization
str(flags) + str(level) + str(count) of the changed state differs from the
sealed hash input — changes that collide on the concatenation escape
detection. -/
theorem seal_verify_roundtrip :
    (∀ g : HopeGenome, g.checksum = Option.none → g.verify_integrity = false)
    ∧ (∀ g : HopeGenome, g.seal.verify_integrity = true)
    ∧ (∀ (g : HopeGenome) (e : PyDict) (l : ℚ) (ns : List ResonanceNode),
        pyReprDict e ++ pyReprFloat l ++ toString ns.length ≠ g.seal_data →
        (HopeGenome.mk e ⟨l⟩ ⟨ns⟩ g.seal.checksum g.metadata).verify_integrity = false) := by
  refine ⟨?_, ?_, ?_⟩
  · intro g h
    simp [HopeGenome.verify_integrity, h]
  · intro g
    simp [HopeGenome.seal, HopeGenome.verify_integrity, HopeGenome.seal_data]
  · intro g e l ns h
    apply verify_false_of_serialization_mismatch _ g.seal_data
    · rfl
    · exact h

/-- Witness for C1: bumping the consciousness level of the sealed default
configuration from 0.5 to 0.9 changes the serialization and breaks
verification. -/
theorem seal_verify_roundtrip_witness :
    (HopeGenome.mk HopeGenome.init.ethics_core ⟨0.9⟩ ⟨[]⟩ HopeGenome.init.seal.checksum
      HopeGenome.init.metadata).verify_integrity = false :=
  seal_verify_roundtrip.2.2 HopeGenome.init HopeGenome.init.ethics_core 0.9 []
    (by with_unfolding_all decide)

/-- C2: on the sealed default configuration with aggregation disabled, the
benign read request is allowed; the same request with a truthy `deny_all`
context rule is denied; the same request at CRITICAL risk escalates. -/
theorem end_to_end_decisions :
    (default_engine.decide sample_request).1 = Except.ok EthicsDecision.ALLOW
    ∧ (default_engine.decide
        { sample_request with context_rules := [("deny_all", PyVal.bool true)] }).1
        = Except.ok EthicsDecision.DENY
    ∧ (default_engine.decide { sample_request with risk_level := .CRITICAL }).1
        = Except.ok EthicsDecision.ESCALATE := by
  refine ⟨?_, ?_, ?_⟩ <;> with_unfolding_all rfl

/-- C7: `broadcast_wave` sets every node's resonance to the wave and returns
the mean of the newly-set values: the wave itself on a non-empty node set,
0 on an empty one. -/
theorem broadcast_wave_spec (c : CollectiveIntelligence) (x : ℚ) :
    (∀ n ∈ (c.broadcast_wave x).2.nodes, n.resonance = x)
    ∧ (c.nodes = [] → (c.broadcast_wave x).1 = 0)
    ∧ (c.nodes ≠ [] → (c.broadcast_wave x).1 = x) := by
  by_cases h : c.nodes = []
  · refine ⟨?_, fun _ => ?_, fun hne => absurd h hne⟩
    · intro n hn
      simp only [CollectiveIntelligence.broadcast_wave, if_pos h] at hn
      rw [h] at hn
      exact absurd hn (List.not_mem_nil n)
    · simp [CollectiveIntelligence.broadcast_wave, h]
  · have hlen : (c.nodes.length : ℚ) ≠ 0 :=
      Nat.cast_ne_zero.mpr (List.length_pos.mpr h).ne'
    refine ⟨?_, fun he => absurd he h, fun _ => ?_⟩
    · intro n hn
      simp only [CollectiveIntelligence.broadcast_wave, if_neg h] at hn
      obtain ⟨m, _, rfl⟩ := List.mem_map.mp hn
      rfl
    · simp only [CollectiveIntelligence.broadcast_wave, if_neg h]
      rw [List.map_map]
      have hmap : c.nodes.map
            ((fun n => n.resonance) ∘ (fun n => { n with resonance := x }))
          = List.replicate c.nodes.length x := List.map_const' c.nodes x
      rw [hmap, List.sum_replicate, List.length_replicate, nsmul_eq_mul]
      exact mul_div_cancel_left₀ x hlen

/-- Witness for C7: a two-node aggregator broadcasting 3 returns 3. -/
theorem broadcast_wave_spec_witness :
    ((CollectiveIntelligence.mk [ResonanceNode.init "a" 1, ResonanceNode.init "b" 2]).broadcast_wave
      3).1 = 3 :=
  (broadcast_wave_spec
      (CollectiveIntelligence.mk [ResonanceNode.init "a" 1, ResonanceNode.init "b" 2]) 3).2.2
    (by with_unfolding_all decide)

/-- C8: `coordinate` returns the mean of the current resonance values (0 on an
empty node set, without error) and writes that mean back into every node. -/
theorem coordinate_spec (c : CollectiveIntelligence) :
    (c.nodes = [] → c.coordinate = (0, c))
    ∧ (c.nodes ≠ [] →
        (c.coordinate).1 = (c.nodes.map (fun n => n.resonance)).sum / (c.nodes.length : ℚ))
    ∧ (∀ n ∈ (c.coordinate).2.nodes, n.resonance = (c.coordinate).1) := by
  by_cases h : c.nodes = []
  · refine ⟨fun _ => ?_, fun hne => absurd h hne, ?_⟩
    · simp [CollectiveIntelligence.coordinate, h]
    · intro n hn
      simp only [CollectiveIntelligence.coordinate, if_pos h] at hn ⊢
      rw [h] at hn
      exact absurd hn (List.not_mem_nil n)
  · refine ⟨fun he => absurd he h, fun _ => ?_, ?_⟩
    · simp [CollectiveIntelligence.coordinate, h]
    · intro n hn
      simp only [CollectiveIntelligence.coordinate, if_neg h] at hn ⊢
      obtain ⟨m, _, rfl⟩ := List.mem_map.mp hn
      rfl

/-- Witness for C8: a two-node aggregator with resonances 1 and 3 coordinates
to the mean 2. -/
theorem coordinate_spec_witness :
    ((CollectiveIntelligence.mk [⟨"a", 1, 1⟩, ⟨"b", 3, 1⟩]).coordinate).1
      = ([(1 : ℚ), 3].sum) / ((2 : ℕ) : ℚ) :=
  (coordinate_spec (CollectiveIntelligence.mk [⟨"a", 1, 1⟩, ⟨"b", 3, 1⟩])).2.1
    (by with_unfolding_all decide)

/-- C3 counterexample: a `decide` call that fails the integrity guard does not
increment the decision counter. On a never-sealed engine the call raises and
the counter stays 0 instead of becoming 1, refuting "increments by exactly one
regardless of outcome, including fatal integrity errors". -/
theorem decide_counter_unchanged_on_failure :
    (unsealed_engine.decide sample_request).1
        = Except.error "Genome integrity compromised"
    ∧ (unsealed_engine.decide sample_request).2.decision_count = 0
    ∧ (unsealed_engine.decide sample_request).2.decision_count
        ≠ unsealed_engine.decision_count + 1 := by
  refine ⟨by with_unfolding_all rfl, by with_unfolding_all rfl, by with_unfolding_all decide⟩

/-- C3 (amended): the guard check runs first, then the counter increment, then
the pipeline. A call passing the guard increments the decision counter and the
verification counter by exactly one; a call failing the guard raises, leaving
the decision counter unchanged while still incrementing the verification
counter; and N successful calls add exactly N to both counters. -/
theorem decision_counter_spec :
    (∀ (rt : HopeGenomeRuntime) (ctx : DecisionContext),
      rt.genome.verify_integrity = true →
        (rt.decide ctx).2.decision_count = rt.decision_count + 1
        ∧ (rt.decide ctx).2.integrity_guard.verification_count
            = rt.integrity_guard.verification_count + 1)
    ∧ (∀ (rt : HopeGenomeRuntime) (ctx : DecisionContext),
      rt.genome.verify_integrity = false →
        (rt.decide ctx).2.decision_count = rt.decision_count
        ∧ (rt.decide ctx).2.integrity_guard.verification_count
            = rt.integrity_guard.verification_count + 1)
    ∧ (∀ (rt : HopeGenomeRuntime) (ctxs : List DecisionContext),
      decideAllOk rt ctxs = true →
        (decideAll rt ctxs).decision_count = rt.decision_count + ctxs.length
        ∧ (decideAll rt ctxs).integrity_guard.verification_count
            = rt.integrity_guard.verification_count + ctxs.length) := by
  have hok : ∀ (rt : HopeGenomeRuntime) (ctx : DecisionContext),
      rt.genome.verify_integrity = true →
        (rt.decide ctx).2.decision_count = rt.decision_count + 1
        ∧ (rt.decide ctx).2.integrity_guard.verification_count
            = rt.integrity_guard.verification_count + 1 := by
    intro rt ctx h
    rw [decide_of_verified rt ctx h]
    have hp := pipeline_preserves rt.bump ctx
    refine ⟨?_, ?_⟩
    · rw [hp.1]; rfl
    · rw [hp.2.1]; rfl
  have herr : ∀ (rt : HopeGenomeRuntime) (ctx : DecisionContext),
      rt.genome.verify_integrity = false →
        (rt.decide ctx).2.decision_count = rt.decision_count
        ∧ (rt.decide ctx).2.integrity_guard.verification_count
            = rt.integrity_guard.verification_count + 1 := by
    intro rt ctx h
    rw [decide_of_unverified rt ctx h]
    exact ⟨rfl, rfl⟩
  refine ⟨hok, herr, ?_⟩
  intro rt ctxs
  induction ctxs generalizing rt with
  | nil => intro _; simp [decideAll]
  | cons c cs ih =>
    intro h
    simp only [decideAll]
    cases hv : rt.genome.verify_integrity with
    | false =>
      exfalso
      simp only [decideAllOk, decide_of_unverified rt c hv] at h
      exact Bool.false_ne_true h
    | true =>
      have hone := hok rt c hv
      have h2 : decideAllOk (rt.decide c).2 cs = true := by
        simp only [decideAllOk] at h
        rw [decide_of_verified rt c hv] at h ⊢
        simpa using h
      obtain ⟨ha, hb⟩ := ih (rt.decide c).2 h2
      refine ⟨?_, ?_⟩
      · rw [ha, hone.1, List.length_cons]; omega
      · rw [hb, hone.2, List.length_cons]; omega

/-- Witness for C3 (amended): two successful decisions on the sealed default
engine leave both counters at exactly 2. -/
theorem decision_counter_spec_witness :
    (decideAll default_engine [sample_request, sample_request]).decision_count
        = default_engine.decision_count + 2
    ∧ (decideAll default_engine
        [sample_request, sample_request]).integrity_guard.verification_count
        = default_engine.integrity_guard.verification_count + 2 :=
  decision_counter_spec.2.2 default_engine [sample_request, sample_request]
    (by with_unfolding_all rfl)

/-- If the normalized risk exceeds 0.75, the pipeline escalates at stage 1
without touching any state. -/
theorem pipeline_escalate_of_risk (rt : HopeGenomeRuntime) (ctx : DecisionContext)
    (h : rt.assess_risk ctx > 0.75) :
    rt.deus_ex_machina_pipeline ctx = (EthicsDecision.ESCALATE, rt) := by
  simp only [HopeGenomeRuntime.deus_ex_machina_pipeline]
  split_ifs
  rfl

/-- If the risk stage passes but the stability check fails, the pipeline
denies at stage 2 without touching any state. -/
theorem pipeline_deny_of_unstable (rt : HopeGenomeRuntime) (ctx : DecisionContext)
    (hr : ¬ rt.assess_risk ctx > 0.75)
    (hs : rt.check_emotional_stability ctx = false) :
    rt.deus_ex_machina_pipeline ctx = (EthicsDecision.DENY, rt) := by
  have hs' : (!rt.check_emotional_stability ctx) = true := by simp [hs]
  simp only [HopeGenomeRuntime.deus_ex_machina_pipeline]
  split_ifs
  rfl

/-- The stability predicate fails exactly when arousal is at least 0.8 or
valence is at most -0.5. -/
theorem check_emotional_stability_false_iff (rt : HopeGenomeRuntime)
    (ctx : DecisionContext) :
    rt.check_emotional_stability ctx = false ↔
      (0.8 ≤ ctx.emotional_state.arousal ∨ ctx.emotional_state.valence ≤ -0.5) := by
  simp [HopeGenomeRuntime.check_emotional_stability, not_lt, Decidable.imp_iff_not_or]

/-- A non-CRITICAL risk level normalizes to at most 0.75. -/
theorem assess_risk_le_of_ne_critical (rt : HopeGenomeRuntime) (ctx : DecisionContext)
    (h : ctx.risk_level ≠ RiskLevel.CRITICAL) :
    rt.assess_risk ctx ≤ 0.75 := by
  cases hr : ctx.risk_level with
  | LOW => simp [HopeGenomeRuntime.assess_risk, hr, RiskLevel.value]; norm_num
  | MEDIUM => simp [HopeGenomeRuntime.assess_risk, hr, RiskLevel.value]; norm_num
  | HIGH => simp [HopeGenomeRuntime.assess_risk, hr, RiskLevel.value]; norm_num
  | CRITICAL => exact absurd hr h

/-- C5: against a configuration passing the guard, CRITICAL risk (normalized
to 1.0 > 0.75) always makes `decide` escalate, regardless of all other request
fields and flags; LOW, MEDIUM and HIGH normalize to at most 0.75 and can never
take the stage-2 escalation branch. -/
theorem risk_escalation_boundary (rt : HopeGenomeRuntime) (ctx : DecisionContext) :
    (rt.genome.verify_integrity = true → ctx.risk_level = RiskLevel.CRITICAL →
      (rt.decide ctx).1 = Except.ok EthicsDecision.ESCALATE)
    ∧ (ctx.risk_level ≠ RiskLevel.CRITICAL → rt.assess_risk ctx ≤ 0.75) := by
  constructor
  · intro hv hc
    rw [decide_of_verified rt ctx hv]
    have hgt : rt.bump.assess_risk ctx > 0.75 := by
      simp [HopeGenomeRuntime.assess_risk, hc, RiskLevel.value]
      norm_num
    rw [pipeline_escalate_of_risk rt.bump ctx hgt]
  · exact assess_risk_le_of_ne_critical rt ctx

/-- Witness for C5: the sealed default engine escalates the benign request at
CRITICAL risk, and LOW risk normalizes below the threshold. -/
theorem risk_escalation_boundary_witness :
    (default_engine.decide { sample_request with risk_level := .CRITICAL }).1
        = Except.ok EthicsDecision.ESCALATE
    ∧ default_engine.assess_risk sample_request ≤ 0.75 :=
  ⟨(risk_escalation_boundary default_engine
        { sample_request with risk_level := .CRITICAL }).1
      (by with_unfolding_all rfl) rfl,
    (risk_escalation_boundary default_engine sample_request).2
      (by with_unfolding_all decide)⟩

/-- C6: with the guard passing and the risk stage passing (risk at most HIGH),
`decide` denies at the stability stage exactly when arousal ≥ 0.8 or valence
≤ -0.5; in particular such a request is always denied there, whatever the
policy flags. -/
theorem stability_denial (rt : HopeGenomeRuntime) (ctx : DecisionContext) :
    (rt.check_emotional_stability ctx = false ↔
      (0.8 ≤ ctx.emotional_state.arousal ∨ ctx.emotional_state.valence ≤ -0.5))
    ∧ (rt.genome.verify_integrity = true → ctx.risk_level ≠ RiskLevel.CRITICAL →
        (0.8 ≤ ctx.emotional_state.arousal ∨ ctx.emotional_state.valence ≤ -0.5) →
        (rt.decide ctx).1 = Except.ok EthicsDecision.DENY) := by
  refine ⟨check_emotional_stability_false_iff rt ctx, ?_⟩
  intro hv hrisk hbad
  rw [decide_of_verified rt ctx hv]
  have hr : ¬ rt.bump.assess_risk ctx > 0.75 :=
    not_lt.mpr (assess_risk_le_of_ne_critical rt.bump ctx hrisk)
  have hs : rt.bump.check_emotional_stability ctx = false :=
    (check_emotional_stability_false_iff rt.bump ctx).mpr hbad
  rw [pipeline_deny_of_unstable rt.bump ctx hr hs]

/-- Witness for C6: arousal 0.9 at LOW risk is denied by the sealed default
engine, and 0.9 triggers the instability predicate. -/
theorem stability_denial_witness :
    ((default_engine.decide
        { sample_request with emotional_state := ⟨0.9, 0.5, 0.5⟩ }).1
      = Except.ok EthicsDecision.DENY)
    ∧ default_engine.check_emotional_stability
        { sample_request with emotional_state := ⟨0.9, 0.5, 0.5⟩ } = false :=
  ⟨(stability_denial default_engine
        { sample_request with emotional_state := ⟨0.9, 0.5, 0.5⟩ }).2
      (by with_unfolding_all rfl) (by with_unfolding_all decide)
      (Or.inl (by with_unfolding_all decide)),
    (stability_denial default_engine
        { sample_request with emotional_state := ⟨0.9, 0.5, 0.5⟩ }).1.mpr
      (Or.inl (by with_unfolding_all decide))⟩

/-- When stages 1-4 pass, the pipeline stores the request's clamped PAD mean
as the new consciousness level, and escalates when that level is below 0.3. -/
theorem pipeline_presence_update (rt : HopeGenomeRuntime) (ctx : DecisionContext)
    (hr : ¬ rt.assess_risk ctx > 0.75)
    (hs : rt.check_emotional_stability ctx = true)
    (hc : rt.apply_context_rules ctx = true)
    (h1 : (dictGet rt.genome.ethics_core "no_harm" (PyVal.bool true)).truthy = true)
    (h2 : (dictGet rt.genome.ethics_core "autonomy_respect" (PyVal.bool true)).truthy = true)
    (h3 : (dictGet rt.genome.ethics_core "transparency" (PyVal.bool true)).truthy = true) :
    (rt.deus_ex_machina_pipeline ctx).2.genome.presence_core
        = rt.genome.presence_core.update_consciousness ctx.emotional_state
    ∧ ((rt.genome.presence_core.update_consciousness
          ctx.emotional_state).consciousness_level < 0.3 →
        (rt.deus_ex_machina_pipeline ctx).1 = EthicsDecision.ESCALATE) := by
  have hs' : ¬ (!rt.check_emotional_stability ctx) = true := by simp [hs]
  have hc' : ¬ (!rt.apply_context_rules ctx) = true := by simp [hc]
  have h1' : ¬ (!(dictGet rt.genome.ethics_core "no_harm"
      (PyVal.bool true)).truthy) = true := by simp [h1]
  have h2' : ¬ (!(dictGet rt.genome.ethics_core "autonomy_respect"
      (PyVal.bool true)).truthy) = true := by simp [h2]
  have h3' : ¬ (!(dictGet rt.genome.ethics_core "transparency"
      (PyVal.bool true)).truthy) = true := by simp [h3]
  simp only [HopeGenomeRuntime.deus_ex_machina_pipeline]
  split_ifs with hA hB hC
  · exact ⟨rfl, fun _ => rfl⟩
  all_goals exact ⟨rfl, fun hcontra => absurd hcontra hA⟩

/-- C4 counterexample: on the colliding configuration — sealed while the
level was 0.51 with two nodes, then changed to level 0.5 with twelve nodes,
which serializes to the same hash input — the benign request passes the
guard, reaches the consciousness-update stage, stores level 0.5, which
differs from the 0.51 that was hashed at seal time, yet `verify_integrity`
afterwards still returns true: the stored checksum is not detectably stale. -/
theorem consciousness_stale_collision :
    collision_engine.genome.verify_integrity = true
    ∧ (collision_engine.decide sample_request).1 = Except.ok EthicsDecision.ALLOW
    ∧ (collision_engine.decide
        sample_request).2.genome.presence_core.consciousness_level = 0.5
    ∧ collision_pre.presence_core.consciousness_level = 0.51
    ∧ ((0.5 : ℚ) ≠ 0.51)
    ∧ (collision_engine.decide sample_request).2.genome.verify_integrity = true :=
  ⟨by with_unfolding_all rfl, by with_unfolding_all rfl, by with_unfolding_all rfl,
    by with_unfolding_all rfl, by with_unfolding_all decide, by with_unfolding_all rfl⟩

/-- C4 (amended): in every `decide` call that reaches the consciousness-update
stage, the configuration's consciousness level becomes the clamped mean of
the request's arousal, valence and dominance; the call escalates when that
level is below 0.3; and because integrity is not re-verified later in the
call, the final state fails `verify_integrity` whenever the serialization
str(flags) + str(new level) + str(count) of the updated state differs from
the string hashed at seal time — a new level that collides on the
concatenation escapes detection. -/
theorem consciousness_update_spec (rt : HopeGenomeRuntime) (ctx : DecisionContext)
    (hv : rt.genome.verify_integrity = true)
    (hr : ¬ rt.assess_risk ctx > 0.75)
    (hs : rt.check_emotional_stability ctx = true)
    (hc : rt.apply_context_rules ctx = true)
    (h1 : (dictGet rt.genome.ethics_core "no_harm" (PyVal.bool true)).truthy = true)
    (h2 : (dictGet rt.genome.ethics_core "autonomy_respect" (PyVal.bool true)).truthy = true)
    (h3 : (dictGet rt.genome.ethics_core "transparency" (PyVal.bool true)).truthy = true) :
    (rt.decide ctx).2.genome.presence_core.consciousness_level
        = clamp01_mean ctx.emotional_state
    ∧ (clamp01_mean ctx.emotional_state < 0.3 →
        (rt.decide ctx).1 = Except.ok EthicsDecision.ESCALATE)
    ∧ (∀ s : String, rt.genome.checksum = some s →
        pyReprDict rt.genome.ethics_core
            ++ pyReprFloat (clamp01_mean ctx.emotional_state)
            ++ toString rt.genome.orchestration_core.nodes.length ≠ s →
        (rt.decide ctx).2.genome.verify_integrity = false) := by
  rw [decide_of_verified rt ctx hv]
  have hp := pipeline_preserves rt.bump ctx
  have hpu := pipeline_presence_update rt.bump ctx hr hs hc h1 h2 h3
  have hlvl : (rt.bump.deus_ex_machina_pipeline
      ctx).2.genome.presence_core.consciousness_level
      = clamp01_mean ctx.emotional_state := by
    rw [hpu.1]; rfl
  refine ⟨hlvl, ?_, ?_⟩
  · intro hlt
    show Except.ok (rt.bump.deus_ex_machina_pipeline ctx).1
        = Except.ok EthicsDecision.ESCALATE
    rw [hpu.2 hlt]
  · intro s hd hne
    show (rt.bump.deus_ex_machina_pipeline ctx).2.genome.verify_integrity = false
    have hsd : (rt.bump.deus_ex_machina_pipeline ctx).2.genome.seal_data
        = pyReprDict rt.genome.ethics_core
            ++ pyReprFloat (clamp01_mean ctx.emotional_state)
            ++ toString rt.genome.orchestration_core.nodes.length := by
      unfold HopeGenome.seal_data
      rw [hp.2.2.2.1, hlvl, hp.2.2.2.2.2.1]
      rfl
    apply verify_false_of_serialization_mismatch _ s
    · rw [hp.2.2.2.2.1]
      exact hd
    · rw [hsd]; exact hne

/-- Witness for C4: the request with state vector (0.2, 0.2, 0.2) drives the
sealed default engine to level 0.2, escalates, and leaves the configuration
failing verification because the serialization no longer matches. -/
theorem consciousness_update_spec_witness :
    (default_engine.decide low_state_request).2.genome.presence_core.consciousness_level
        = clamp01_mean low_state_request.emotional_state
    ∧ (default_engine.decide low_state_request).1 = Except.ok EthicsDecision.ESCALATE
    ∧ (default_engine.decide low_state_request).2.genome.verify_integrity = false := by
  have h := consciousness_update_spec default_engine low_state_request
    (by with_unfolding_all rfl) (by with_unfolding_all decide)
    (by with_unfolding_all rfl) (by with_unfolding_all rfl)
    (by with_unfolding_all rfl) (by with_unfolding_all rfl) (by with_unfolding_all rfl)
  exact ⟨h.1, h.2.1 (by with_unfolding_all decide),
    h.2.2 HopeGenome.init.seal_data (by with_unfolding_all rfl)
      (by with_unfolding_all decide)⟩
